import Mathlib

/-!
Verification of the compression-stream-polyfill module (src/index.ts).

The module validates a requested compression format, wraps a node:zlib
transform as a readable/writable web-stream pair, and conditionally
registers the two polyfill classes on globalThis. The definitions below
are a shallow embedding of that code: JavaScript runtime values are an
inductive type, the format validator mirrors the expression
`typeof format === "string" && format in COMPRESSION_FORMATS` including
the prototype-chain semantics of the `in` operator, and each constructor
is a pure function returning the construction outcome together with the
list of allocation effects it performed. The external node:zlib codec,
whose code is not part of this repository, is modelled from the spec in a
later section.
-/

/-- Model of a JavaScript runtime value, covering the value categories that
the format validator can receive: strings, numbers (modelled as integers),
booleans, null, undefined, symbols (carrying their description), and
objects (characterized by the string their toString method yields). -/
inductive JSValue where
  | str (s : String)
  | num (n : Int)
  | boolean (b : Bool)
  | nullVal
  | undefinedVal
  | sym (sdescr : String)
  | obj (toStringResult : String)
deriving DecidableEq, Repr

/-- JavaScript typeof operator on the modelled values. Note typeof null is
the string "object", a well-known JavaScript quirk. -/
def jsTypeof : JSValue → String
  | .str _ => "string"
  | .num _ => "number"
  | .boolean _ => "boolean"
  | .nullVal => "object"
  | .undefinedVal => "undefined"
  | .sym _ => "symbol"
  | .obj _ => "object"

/-- JavaScript String(v) coercion on the modelled values, as used by the
template literal in the error message of both constructors. -/
def jsToString : JSValue → String
  | .str s => s
  | .num n => toString n
  | .boolean b => if b then "true" else "false"
  | .nullVal => "null"
  | .undefinedVal => "undefined"
  | .sym d => "Symbol(" ++ d ++ ")"
  | .obj t => t

/-- Single-quote character, written via its code point. -/
def quoteChar : String := String.singleton (Char.ofNat 39)

/-- Model of the six node:zlib factory functions referenced by the two
lookup tables in src/index.ts. -/
inductive ZlibFactory where
  | createDeflate
  | createDeflateRaw
  | createGzip
  | createInflate
  | createInflateRaw
  | createGunzip
deriving DecidableEq, Repr

/-- The COMPRESSION_FORMATS table of src/index.ts: an object literal with
three own keys mapping format names to zlib compressor factories. -/
def COMPRESSION_FORMATS : List (String × ZlibFactory) :=
  [("deflate", .createDeflate), ("deflate-raw", .createDeflateRaw), ("gzip", .createGzip)]

/-- The DECOMPRESSION_FORMATS table of src/index.ts: an object literal with
three own keys mapping format names to zlib decompressor factories. -/
def DECOMPRESSION_FORMATS : List (String × ZlibFactory) :=
  [("deflate", .createInflate), ("deflate-raw", .createInflateRaw), ("gzip", .createGunzip)]

/-- Property keys of Object.prototype in ECMAScript. An object literal such
as COMPRESSION_FORMATS inherits all of these through its prototype chain,
and the JavaScript `in` operator reports inherited properties as present. -/
def objectPrototypeKeys : List String :=
  ["constructor", "hasOwnProperty", "isPrototypeOf", "propertyIsEnumerable",
   "toLocaleString", "toString", "valueOf", "__proto__", "__defineGetter__",
   "__defineSetter__", "__lookupGetter__", "__lookupSetter__"]

/-- JavaScript `in` operator applied to an object literal with the given own
keys: it consults the own properties and then the prototype chain, which
for an object literal is Object.prototype. -/
def inOperator (key : String) (ownKeys : List String) : Bool :=
  ownKeys.contains key || objectPrototypeKeys.contains key

/-- The isValidFormat function of src/index.ts:
`typeof format === "string" && format in COMPRESSION_FORMATS`.
The first conjunct is the match on the string constructor; the second is
the `in` test against the COMPRESSION_FORMATS object literal. -/
def isValidFormat (v : JSValue) : Bool :=
  match v with
  | .str s => inOperator s (COMPRESSION_FORMATS.map Prod.fst)
  | _ => false

/-- Model of a zlib transform instance, identified by the factory that
created it. Each constructor call allocates a fresh one. -/
structure ZlibTransform where
  createdBy : ZlibFactory
deriving DecidableEq, Repr

/-- Side of a duplex pair a web stream object exposes. -/
inductive StreamSide where
  | readableSide
  | writableSide
deriving DecidableEq, Repr

/-- Model of a web stream object produced by Readable.toWeb or
Writable.toWeb: it wraps a zlib transform on one side. -/
structure WebStream where
  wraps : ZlibTransform
  side : StreamSide
deriving DecidableEq, Repr

/-- A JavaScript reference to a stream object: either null or an actual
stream object. The polyfill stores such references in its two fields. -/
inductive StreamRef where
  | jsNull
  | stream (s : WebStream)
deriving DecidableEq, Repr

/-- Readable.toWeb from node:stream, applied to a zlib transform: yields a
readable web stream object wrapping the transform (never null). -/
def readableToWeb (t : ZlibTransform) : StreamRef := .stream ⟨t, .readableSide⟩

/-- Writable.toWeb from node:stream, applied to a zlib transform: yields a
writable web stream object wrapping the transform (never null). -/
def writableToWeb (t : ZlibTransform) : StreamRef := .stream ⟨t, .writableSide⟩

/-- Model of a constructed polyfill instance: the two public readonly
fields declared by both classes in src/index.ts. -/
structure PolyfillInstance where
  readable : StreamRef
  writable : StreamRef
deriving DecidableEq, Repr

/-- Class of a thrown JavaScript error. -/
inductive JSErrorClass where
  | typeError
  | rangeError
  | genericError
deriving DecidableEq, Repr

/-- A thrown JavaScript error: its class and its message. -/
structure JSError where
  errClass : JSErrorClass
  message : String
deriving DecidableEq, Repr

/-- The error message built by both constructors in src/index.ts:
`Invalid compression format \x7b...\x7d. Use: deflate, deflate-raw, or gzip`
with the offending value rendered through String(format) between single
quotes. -/
def invalidFormatMessage (v : JSValue) : String :=
  "Invalid compression format " ++ quoteChar ++ jsToString v ++ quoteChar ++
    ". Use: deflate, deflate-raw, or gzip"

/-- The TypeError thrown by both constructors on a rejected format. -/
def invalidFormatError (v : JSValue) : JSError :=
  ⟨.typeError, invalidFormatMessage v⟩

/-- Allocation effects a constructor can perform after validation:
invoking a codec factory from one of the two tables, invoking an inherited
Object.prototype member found by the lookup, and converting the transform
to a web stream on each side. -/
inductive Effect where
  | invokedFactory (f : ZlibFactory)
  | invokedInheritedMember (key : String)
  | calledReadableToWeb (t : ZlibTransform)
  | calledWritableToWeb (t : ZlibTransform)
deriving DecidableEq, Repr

/-- Outcome of running one of the two constructors. The inheritedLookup
outcome records that validation passed for a key the format table only
holds through its prototype chain: the code then reads an inherited
Object.prototype member instead of a codec factory and proceeds into
behavior outside this module (the call and the toWeb conversion fail in
node, but not with the InvalidFormat error). -/
inductive ConstructResult where
  | invalidFormatThrown (e : JSError)
  | constructed (inst : PolyfillInstance)
  | inheritedLookup (key : String)
deriving DecidableEq, Repr

/-- Decides whether a construction outcome is the InvalidFormat throw. -/
def ConstructResult.threwInvalidFormat : ConstructResult → Bool
  | .invalidFormatThrown _ => true
  | _ => false

/-- The CompressionStreamPolyfill constructor of src/index.ts: validate the
format with isValidFormat, throwing the InvalidFormat TypeError when the
test fails; otherwise look the key up in COMPRESSION_FORMATS, invoke the
factory, and store the two toWeb conversions of the resulting transform.
The second component lists the allocation effects performed. -/
def CompressionStreamPolyfill.construct (v : JSValue) : ConstructResult × List Effect :=
  if isValidFormat v then
    match v with
    | .str s =>
      match List.lookup s COMPRESSION_FORMATS with
      | some factory =>
        let transform : ZlibTransform := ⟨factory⟩
        (.constructed ⟨readableToWeb transform, writableToWeb transform⟩,
          [.invokedFactory factory, .calledReadableToWeb transform,
            .calledWritableToWeb transform])
      | none => (.inheritedLookup s, [.invokedInheritedMember s])
    | _ => (.inheritedLookup (jsToString v), [])
  else
    (.invalidFormatThrown (invalidFormatError v), [])

/-- The DecompressionStreamPolyfill constructor of src/index.ts: identical
shape to the compression constructor, with the DECOMPRESSION_FORMATS table
supplying the factories. -/
def DecompressionStreamPolyfill.construct (v : JSValue) : ConstructResult × List Effect :=
  if isValidFormat v then
    match v with
    | .str s =>
      match List.lookup s DECOMPRESSION_FORMATS with
      | some factory =>
        let transform : ZlibTransform := ⟨factory⟩
        (.constructed ⟨readableToWeb transform, writableToWeb transform⟩,
          [.invokedFactory factory, .calledReadableToWeb transform,
            .calledWritableToWeb transform])
      | none => (.inheritedLookup s, [.invokedInheritedMember s])
    | _ => (.inheritedLookup (jsToString v), [])
  else
    (.invalidFormatThrown (invalidFormatError v), [])

/-- The CompressionFormat type of src/index.ts: the closed three-element
union of recognized format names. -/
inductive CompressionFormat where
  | deflate
  | deflateRaw
  | gzip
deriving DecidableEq, Repr

/-- String literal of each member of the CompressionFormat union. -/
def formatKey : CompressionFormat → String
  | .deflate => "deflate"
  | .deflateRaw => "deflate-raw"
  | .gzip => "gzip"

/-- Factory COMPRESSION_FORMATS assigns to each recognized format. -/
def compressionFactory : CompressionFormat → ZlibFactory
  | .deflate => .createDeflate
  | .deflateRaw => .createDeflateRaw
  | .gzip => .createGzip

/-- Factory DECOMPRESSION_FORMATS assigns to each recognized format. -/
def decompressionFactory : CompressionFormat → ZlibFactory
  | .deflate => .createInflate
  | .deflateRaw => .createInflateRaw
  | .gzip => .createGunzip

/-- Value stored in a globalThis slot: one of the two polyfill classes or
some value the host environment defined. -/
inductive GlobalValue where
  | compressionPolyfillClass
  | decompressionPolyfillClass
  | hostDefined (id : Nat)
deriving DecidableEq, Repr

/-- Property descriptor as passed to Object.defineProperty. -/
structure PropertyDescriptor where
  value : GlobalValue
  writable : Bool
  enumerable : Bool
  configurable : Bool
deriving DecidableEq, Repr

/-- State of the two relevant globalThis slots. A slot holding none models
a name the host does not define (typeof yields the string "undefined"). -/
structure GlobalThis where
  compressionStreamSlot : Option PropertyDescriptor
  decompressionStreamSlot : Option PropertyDescriptor
deriving DecidableEq, Repr

/-- The module-load registration code at the bottom of src/index.ts: for
each of the two global names, if typeof of the current global value is
"undefined", define the property with the polyfill class as value,
writable, non-enumerable, and configurable; otherwise leave the slot
untouched. -/
def moduleLoad (g : GlobalThis) : GlobalThis :=
  let g1 :=
    match g.compressionStreamSlot with
    | none =>
      { g with compressionStreamSlot := some ⟨.compressionPolyfillClass, true, false, true⟩ }
    | some _ => g
  match g1.decompressionStreamSlot with
  | none =>
    { g1 with decompressionStreamSlot := some ⟨.decompressionPolyfillClass, true, false, true⟩ }
  | some _ => g1

/-!
Codec model. The actual byte-level codec lives in node:zlib, outside this
repository. The spec describes its wire representations: gzip is a
ten-byte header, a deflate payload, a CRC32 checksum and a length trailer;
deflate is a zlib-wrapped deflate stream with a two-byte header and an
Adler checksum trailer; deflate-raw is the bare deflate stream. The model
below implements those framings faithfully over a deflate payload made of
RFC 1951 stored blocks, which is a valid deflate stream. Bytes are natural
numbers; the compressor only ever emits values below 256.
-/

/-- Modelled from the spec: header of one RFC 1951 stored block, as emitted
by the deflate payload of the node:zlib codec model. First byte holds the
BFINAL bit and the zero BTYPE, then the block length and its complement,
each as two little-endian bytes. -/
def storedBlockHeader (final : Bool) (len : Nat) : List Nat :=
  [(if final then 1 else 0), len % 256, len / 256, (65535 - len) % 256, (65535 - len) / 256]

/-- Modelled from the spec: fuel-indexed loop producing a raw deflate
stream of stored blocks, splitting the input into blocks of at most 65535
bytes with the final bit set on the last. The fuel only serves
termination; deflateRaw supplies enough of it. -/
def deflateRawLoop : Nat → List Nat → List Nat
  | 0, _ => []
  | fuel + 1, B =>
    if B.length ≤ 65535 then storedBlockHeader true B.length ++ B
    else storedBlockHeader false 65535 ++ B.take 65535 ++ deflateRawLoop fuel (B.drop 65535)

/-- Modelled from the spec: the raw deflate compressor (zlib
createDeflateRaw), emitting stored blocks. -/
def deflateRaw (B : List Nat) : List Nat := deflateRawLoop (B.length + 1) B

/-- Failure of the modelled codec on malformed compressed input, the
CorruptInputError class of the spec. -/
inductive ZlibError where
  | corruptInput
deriving DecidableEq, Repr

/-- Modelled from the spec: fuel-indexed loop of the raw inflate decoder
(zlib createInflateRaw) over stored blocks. It checks the block type, the
length complement and the available length, accumulates the block bodies,
and on the final block returns the decoded bytes together with the bytes
following the deflate stream. Anything malformed is CorruptInputError. -/
def inflateRawLoop : Nat → List Nat → List Nat → Except ZlibError (List Nat × List Nat)
  | 0, _, _ => .error .corruptInput
  | fuel + 1, acc, bh :: l0 :: l1 :: n0 :: n1 :: rest =>
    if bh / 2 % 4 ≠ 0 then .error .corruptInput
    else
      let len := l0 + 256 * l1
      let nlen := n0 + 256 * n1
      if len + nlen ≠ 65535 then .error .corruptInput
      else if rest.length < len then .error .corruptInput
      else if bh % 2 = 1 then .ok (acc ++ rest.take len, rest.drop len)
      else inflateRawLoop fuel (acc ++ rest.take len) (rest.drop len)
  | _ + 1, _, _ => .error .corruptInput

/-- Modelled from the spec: the raw inflate decoder, returning the decoded
bytes and whatever follows the final block. -/
def inflateRaw (input : List Nat) : Except ZlibError (List Nat × List Nat) :=
  inflateRawLoop (input.length + 1) [] input

/-- Modelled from the spec: one step of the Adler-32 checksum, folding a
byte into the two running sums modulo 65521. -/
def adler32Step : Nat × Nat → Nat → Nat × Nat
  | (a, b), byte =>
    let a2 := (a + byte % 256) % 65521
    (a2, (b + a2) % 65521)

/-- Modelled from the spec: the Adler-32 checksum the zlib wrapper appends
after the deflate payload. -/
def adler32 (B : List Nat) : Nat :=
  let p := B.foldl adler32Step (1, 0)
  p.2 * 65536 + p.1

/-- Big-endian four-byte rendering of a 32-bit value. -/
def be32 (x : Nat) : List Nat :=
  [x / 16777216 % 256, x / 65536 % 256, x / 256 % 256, x % 256]

/-- Little-endian four-byte rendering of a 32-bit value. -/
def le32 (x : Nat) : List Nat :=
  [x % 256, x / 256 % 256, x / 65536 % 256, x / 16777216 % 256]

/-- Modelled from the spec: the zlib-wrapped deflate compressor (zlib
createDeflate): two-byte header, deflate payload, big-endian Adler-32
trailer. The header pair 120, 1 declares method 8 and passes the modulo 31
check. -/
def zlibDeflate (B : List Nat) : List Nat :=
  [120, 1] ++ deflateRaw B ++ be32 (adler32 B)

/-- Modelled from the spec: the zlib-wrapped inflate decoder (zlib
createInflate): checks the two-byte header, inflates the payload, and
verifies the big-endian Adler-32 trailer against the decoded bytes. -/
def zlibInflate (input : List Nat) : Except ZlibError (List Nat) :=
  match input with
  | cmf :: flg :: rest =>
    if cmf % 16 ≠ 8 then .error .corruptInput
    else if (cmf * 256 + flg) % 31 ≠ 0 then .error .corruptInput
    else
      match inflateRaw rest with
      | .ok (out, [a3, a2, a1, a0]) =>
        if a3 * 16777216 + a2 * 65536 + a1 * 256 + a0 = adler32 out then .ok out
        else .error .corruptInput
      | .ok _ => .error .corruptInput
      | .error e => .error e
  | _ => .error .corruptInput

/-- Modelled from the spec: eight shift-and-conditional-xor rounds of the
reflected CRC32 with polynomial 0xEDB88320. -/
def crc32Bits : Nat → Nat → Nat
  | 0, crc => crc
  | n + 1, crc => crc32Bits n (if crc % 2 = 1 then crc / 2 ^^^ 3988292384 else crc / 2)

/-- Modelled from the spec: CRC32 update by one byte. -/
def crc32Update (crc b : Nat) : Nat := crc32Bits 8 (crc ^^^ b % 256)

/-- Modelled from the spec: the CRC32 checksum the gzip framing stores in
its trailer. -/
def crc32 (B : List Nat) : Nat :=
  B.foldl crc32Update 4294967295 ^^^ 4294967295

/-- Modelled from the spec: the ten-byte gzip header: magic bytes 31 and
139, method 8 (deflate), no flags, zero mtime, zero extra flags, unknown
operating system. -/
def gzipHeader : List Nat := [31, 139, 8, 0, 0, 0, 0, 0, 0, 255]

/-- Modelled from the spec: the gzip compressor (zlib createGzip):
ten-byte header, deflate payload, little-endian CRC32 of the input,
little-endian input length modulo two to the thirty-second. -/
def gzipCompress (B : List Nat) : List Nat :=
  gzipHeader ++ deflateRaw B ++ le32 (crc32 B) ++ le32 (B.length % 4294967296)

/-- Modelled from the spec: the gunzip decoder (zlib createGunzip): checks
the magic bytes, the method and the flag byte, skips the remaining header
fields, inflates the payload, and verifies the CRC32 and length trailer
against the decoded bytes. -/
def gunzip (input : List Nat) : Except ZlibError (List Nat) :=
  match input with
  | 31 :: 139 :: 8 :: 0 :: _ :: _ :: _ :: _ :: _ :: _ :: rest =>
    match inflateRaw rest with
    | .ok (out, [c0, c1, c2, c3, s0, s1, s2, s3]) =>
      if c0 + 256 * c1 + 65536 * c2 + 16777216 * c3 = crc32 out then
        if s0 + 256 * s1 + 65536 * s2 + 16777216 * s3 = out.length % 4294967296 then .ok out
        else .error .corruptInput
      else .error .corruptInput
    | .ok _ => .error .corruptInput
    | .error e => .error e
  | _ => .error .corruptInput

/-- Modelled from the spec: the native compressing transform the factory of
each format produces, applied end to end to a byte sequence. -/
def nativeCompress : CompressionFormat → List Nat → List Nat
  | .deflate => zlibDeflate
  | .deflateRaw => deflateRaw
  | .gzip => gzipCompress

/-- Modelled from the spec: the native decompressing transform the factory
of each format produces, applied end to end to a byte sequence. The raw
decoder ignores bytes after the final block, as the streaming decoder
stops there. -/
def nativeDecompress : CompressionFormat → List Nat → Except ZlibError (List Nat)
  | .deflate => zlibInflate
  | .deflateRaw => fun input =>
      match inflateRaw input with
      | .ok (out, _) => .ok out
      | .error e => .error e
  | .gzip => gunzip

/-- Modelled from the spec: feeding a byte sequence through the
readable/writable pair of a constructed CompressionStreamPolyfill (write
all bytes, close the writable side, read the readable side to its end):
the bytes the wrapped native transform emits, in order. -/
def pipeThroughCompression (fmt : CompressionFormat) (B : List Nat) : List Nat :=
  nativeCompress fmt B

/-- Modelled from the spec: feeding a byte sequence through the
readable/writable pair of a constructed DecompressionStreamPolyfill. -/
def pipeThroughDecompression (fmt : CompressionFormat) (B : List Nat) :
    Except ZlibError (List Nat) :=
  nativeDecompress fmt B

/-!
Round-trip development for the modelled codec: a raw deflate stream of
stored blocks decodes back to the original bytes, with the bytes after the
final block returned untouched, and the zlib and gzip framings preserve
this through their header checks and checksum trailers.
-/

/-- Decoding one final stored block consumes exactly the header and the
block body and returns the following bytes as the remainder. -/
theorem inflateRawLoop_stored_final (i : Nat) (acc chunk tail : List Nat)
    (h : chunk.length ≤ 65535) :
    inflateRawLoop (i + 1) acc (storedBlockHeader true chunk.length ++ chunk ++ tail) =
      .ok (acc ++ chunk, tail) := by
  simp only [storedBlockHeader, if_pos, List.cons_append, List.nil_append, List.append_assoc]
  simp only [inflateRawLoop]
  rw [show chunk.length % 256 + 256 * (chunk.length / 256) = chunk.length from by omega]
  rw [show (65535 - chunk.length) % 256 + 256 * ((65535 - chunk.length) / 256) =
      65535 - chunk.length from by omega]
  rw [if_neg (by norm_num), if_neg (by omega)]
  rw [if_neg (by simp [List.length_append])]
  rw [if_pos (by norm_num)]
  rw [List.take_left, List.drop_left]

/-- Decoding one non-final stored block of maximal length consumes the
header and the body and continues decoding on the rest. -/
theorem inflateRawLoop_stored_cont (i : Nat) (acc chunk rest : List Nat)
    (h : chunk.length = 65535) :
    inflateRawLoop (i + 1) acc (storedBlockHeader false 65535 ++ (chunk ++ rest)) =
      inflateRawLoop i (acc ++ chunk) rest := by
  simp only [storedBlockHeader, List.cons_append, List.nil_append]
  simp only [inflateRawLoop]
  norm_num
  rw [if_neg (by simp [List.length_append]; omega)]
  rw [← h, List.take_left, List.drop_left]

/-- Core inversion: with enough fuel on both sides, the inflate loop run on
a deflate loop output followed by any tail decodes the compressed bytes and
returns the tail. -/
theorem inflateRawLoop_deflateRawLoop (n : Nat) :
    ∀ B acc tail d i, B.length = n → n < d → n < i →
      inflateRawLoop i acc (deflateRawLoop d B ++ tail) = .ok (acc ++ B, tail) := by
  induction n using Nat.strong_induction_on with
  | _ n ih =>
    intro B acc tail d i hlen hd hi
    obtain ⟨d0, rfl⟩ : ∃ d0, d = d0 + 1 := ⟨d - 1, by omega⟩
    obtain ⟨i0, rfl⟩ : ∃ i0, i = i0 + 1 := ⟨i - 1, by omega⟩
    by_cases hsmall : B.length ≤ 65535
    · rw [deflateRawLoop, if_pos hsmall, List.append_assoc]
      exact inflateRawLoop_stored_final i0 acc B tail hsmall
    · rw [deflateRawLoop, if_neg hsmall]
      have htake : (B.take 65535).length = 65535 := by
        simp [List.length_take]; omega
      rw [List.append_assoc, List.append_assoc]
      rw [inflateRawLoop_stored_cont i0 acc (B.take 65535)
        (deflateRawLoop d0 (B.drop 65535) ++ tail) htake]
      have hdroplen : (B.drop 65535).length = n - 65535 := by
        simp [List.length_drop, hlen]
      rw [ih (n - 65535) (by omega) (B.drop 65535) (acc ++ B.take 65535) tail d0 i0
        hdroplen (by omega) (by omega)]
      rw [List.append_assoc, List.take_append_drop]

/-- Fuel adequacy step: the inflate loop at the fuel inflateRaw supplies
inverts the deflate output followed by a tail. -/
theorem inflateRaw_deflateRaw_tail (B tail : List Nat)
    (hfuel : B.length < (deflateRaw B ++ tail).length + 1) :
    inflateRawLoop ((deflateRaw B ++ tail).length + 1) [] (deflateRaw B ++ tail) =
      .ok (B, tail) := by
  have := inflateRawLoop_deflateRawLoop B.length B [] tail (B.length + 1)
    ((deflateRaw B ++ tail).length + 1) rfl (by omega) hfuel
  simpa [deflateRaw] using this

/-- Stored-block framing never shrinks: the deflate loop output is at least
as long as its input, so the input length is a sufficient fuel bound. -/
theorem deflateRawLoop_length (n : Nat) :
    ∀ B d, B.length = n → n < d → n ≤ (deflateRawLoop d B).length := by
  induction n using Nat.strong_induction_on with
  | _ n ih =>
    intro B d hlen hd
    obtain ⟨d0, rfl⟩ : ∃ d0, d = d0 + 1 := ⟨d - 1, by omega⟩
    by_cases hsmall : B.length ≤ 65535
    · rw [deflateRawLoop, if_pos hsmall]
      simp [storedBlockHeader, List.length_append]
      omega
    · rw [deflateRawLoop, if_neg hsmall]
      have hdroplen : (B.drop 65535).length = n - 65535 := by
        simp [List.length_drop, hlen]
      have := ih (n - 65535) (by omega) (B.drop 65535) d0 hdroplen (by omega)
      simp [storedBlockHeader, List.length_append, List.length_take]
      omega

/-- Deflate output length bound at the fuel deflateRaw supplies. -/
theorem deflateRaw_length (B : List Nat) : B.length ≤ (deflateRaw B).length :=
  deflateRawLoop_length B.length B (B.length + 1) rfl (by omega)

/-- Raw deflate inversion: inflateRaw on deflateRaw output followed by any
tail returns the original bytes and the tail. -/
theorem inflateRaw_deflateRaw (B tail : List Nat) :
    inflateRaw (deflateRaw B ++ tail) = .ok (B, tail) := by
  have h1 := deflateRaw_length B
  rw [inflateRaw]
  exact inflateRaw_deflateRaw_tail B tail (by simp [List.length_append]; omega)

/-- Both running sums of the Adler-32 fold stay below the modulus. -/
theorem adler32_foldl_bound (l : List Nat) :
    ∀ p : Nat × Nat, p.1 < 65521 → p.2 < 65521 →
      (l.foldl adler32Step p).1 < 65521 ∧ (l.foldl adler32Step p).2 < 65521 := by
  induction l with
  | nil => intro p h1 h2; exact ⟨h1, h2⟩
  | cons b t ih =>
    intro p h1 h2
    have hstep : (adler32Step p b).1 < 65521 ∧ (adler32Step p b).2 < 65521 := by
      cases p with
      | mk a c => simp only [adler32Step]; omega
    simpa [List.foldl] using ih (adler32Step p b) hstep.1 hstep.2

/-- Adler-32 checksums fit in 32 bits. -/
theorem adler32_lt (B : List Nat) : adler32 B < 4294967296 := by
  have := adler32_foldl_bound B (1, 0) (by norm_num) (by norm_num)
  rw [adler32]
  omega

/-- Zlib-wrapped round trip: the inflate decoder inverts the deflate
compressor, header and Adler-32 trailer included. -/
theorem zlibInflate_zlibDeflate (B : List Nat) : zlibInflate (zlibDeflate B) = .ok B := by
  have hb : adler32 B < 4294967296 := adler32_lt B
  rw [zlibDeflate]
  simp only [List.cons_append, List.nil_append]
  simp only [zlibInflate]
  norm_num
  rw [inflateRaw_deflateRaw B (be32 (adler32 B))]
  simp only [be32]
  rw [if_pos (by omega)]

/-- CRC32 bit rounds keep the running value below 32 bits. -/
theorem crc32Bits_bound (n : Nat) :
    ∀ crc, crc < 4294967296 → crc32Bits n crc < 4294967296 := by
  induction n with
  | zero => intro crc h; simpa [crc32Bits] using h
  | succ n ih =>
    intro crc h
    rw [crc32Bits]
    apply ih
    by_cases hc : crc % 2 = 1
    · rw [if_pos hc]
      have hx : crc / 2 ^^^ 3988292384 < 2 ^ 32 :=
        Nat.xor_lt_two_pow (by omega) (by norm_num)
      simpa using hx
    · rw [if_neg hc]
      omega

/-- Folding CRC32 updates keeps the running value below 32 bits. -/
theorem crc32_foldl_bound (l : List Nat) :
    ∀ crc, crc < 4294967296 → l.foldl crc32Update crc < 4294967296 := by
  induction l with
  | nil => intro crc h; simpa [List.foldl] using h
  | cons b t ih =>
    intro crc h
    have hstep : crc32Update crc b < 4294967296 := by
      rw [crc32Update]
      apply crc32Bits_bound
      have hx : crc ^^^ b % 256 < 2 ^ 32 :=
        Nat.xor_lt_two_pow (by omega) (by omega)
      simpa using hx
    simpa [List.foldl] using ih (crc32Update crc b) hstep

/-- CRC32 checksums fit in 32 bits. -/
theorem crc32_lt (B : List Nat) : crc32 B < 4294967296 := by
  rw [crc32]
  have h1 : B.foldl crc32Update 4294967295 < 4294967296 :=
    crc32_foldl_bound B 4294967295 (by norm_num)
  have hx : B.foldl crc32Update 4294967295 ^^^ 4294967295 < 2 ^ 32 :=
    Nat.xor_lt_two_pow (by simpa using h1) (by norm_num)
  simpa using hx

/-- Gzip round trip: the gunzip decoder inverts the gzip compressor,
header, CRC32 trailer and length trailer included. -/
theorem gunzip_gzipCompress (B : List Nat) : gunzip (gzipCompress B) = .ok B := by
  have hc : crc32 B < 4294967296 := crc32_lt B
  have hs : B.length % 4294967296 < 4294967296 := by omega
  rw [gzipCompress, gzipHeader]
  simp only [List.cons_append, List.nil_append, List.append_assoc]
  simp only [gunzip]
  rw [inflateRaw_deflateRaw B (le32 (crc32 B) ++ le32 (B.length % 4294967296))]
  simp only [le32, List.cons_append, List.nil_append]
  rw [if_pos (by omega), if_pos (by omega)]

/-!
Helper lemmas about the two constructors.
-/

/-- On a rejected format, the compression constructor throws the
InvalidFormat TypeError and performs no allocation effect. -/
theorem compression_construct_of_invalid (v : JSValue) (h : isValidFormat v = false) :
    CompressionStreamPolyfill.construct v = (.invalidFormatThrown (invalidFormatError v), []) := by
  simp [CompressionStreamPolyfill.construct, h]

/-- On a rejected format, the decompression constructor throws the
InvalidFormat TypeError and performs no allocation effect. -/
theorem decompression_construct_of_invalid (v : JSValue) (h : isValidFormat v = false) :
    DecompressionStreamPolyfill.construct v = (.invalidFormatThrown (invalidFormatError v), []) := by
  simp [DecompressionStreamPolyfill.construct, h]

/-- On an accepted format, the compression constructor never produces the
InvalidFormat throw. -/
theorem compression_construct_not_thrown (v : JSValue) (h : isValidFormat v = true) :
    (CompressionStreamPolyfill.construct v).1.threwInvalidFormat = false := by
  cases v with
  | str s =>
    simp only [CompressionStreamPolyfill.construct, h, if_true]
    cases hl : List.lookup s COMPRESSION_FORMATS <;>
      simp [ConstructResult.threwInvalidFormat, hl]
  | num n => simp [isValidFormat] at h
  | boolean b => simp [isValidFormat] at h
  | nullVal => simp [isValidFormat] at h
  | undefinedVal => simp [isValidFormat] at h
  | sym d => simp [isValidFormat] at h
  | obj t => simp [isValidFormat] at h

/-- On an accepted format, the decompression constructor never produces the
InvalidFormat throw. -/
theorem decompression_construct_not_thrown (v : JSValue) (h : isValidFormat v = true) :
    (DecompressionStreamPolyfill.construct v).1.threwInvalidFormat = false := by
  cases v with
  | str s =>
    simp only [DecompressionStreamPolyfill.construct, h, if_true]
    cases hl : List.lookup s DECOMPRESSION_FORMATS <;>
      simp [ConstructResult.threwInvalidFormat, hl]
  | num n => simp [isValidFormat] at h
  | boolean b => simp [isValidFormat] at h
  | nullVal => simp [isValidFormat] at h
  | undefinedVal => simp [isValidFormat] at h
  | sym d => simp [isValidFormat] at h
  | obj t => simp [isValidFormat] at h

/-!
Claim theorems.
-/

/-- C1, counter-evidence: the claim states that every string other than the
exact three format names is rejected by a membership test against exactly
that three-element set. The code instead tests membership with the
JavaScript in operator, which also reports properties the
COMPRESSION_FORMATS object literal inherits from Object.prototype. At the
failing input, the string toString, the validator answers true although
toString is not among the three own keys, and neither constructor throws
the InvalidFormat error: construction proceeds to read the inherited
member. -/
theorem claim1_validator_accepts_inherited_key :
    isValidFormat (.str "toString") = true ∧
    (COMPRESSION_FORMATS.map Prod.fst).contains "toString" = false ∧
    (CompressionStreamPolyfill.construct (.str "toString")).1 =
      .inheritedLookup "toString" ∧
    (DecompressionStreamPolyfill.construct (.str "toString")).1 =
      .inheritedLookup "toString" := by
  refine ⟨by decide, by decide, by decide, by decide⟩

/-- C2: for every format in the three-element union and every byte
sequence, including the empty one, piping the bytes through the
compression adapter and the result through the decompression adapter for
the same format yields exactly the original bytes. -/
theorem claim2_round_trip (fmt : CompressionFormat) (B : List Nat) :
    pipeThroughDecompression fmt (pipeThroughCompression fmt B) = .ok B := by
  cases fmt with
  | deflate => exact zlibInflate_zlibDeflate B
  | deflateRaw =>
    have h : inflateRaw (deflateRaw B) = .ok (B, []) := by
      simpa using inflateRaw_deflateRaw B []
    simp [pipeThroughDecompression, pipeThroughCompression, nativeCompress,
      nativeDecompress, h]
  | gzip => exact gunzip_gzipCompress B

/-- C3: whenever either constructor fails with the InvalidFormat error, the
failure happens before any allocation: the list of performed effects is
empty, so no codec factory was invoked and no readable or writable handle
was created before the throw. -/
theorem claim3_throw_precedes_allocation (v : JSValue) :
    (∀ e, (CompressionStreamPolyfill.construct v).1 = .invalidFormatThrown e →
      (CompressionStreamPolyfill.construct v).2 = []) ∧
    (∀ e, (DecompressionStreamPolyfill.construct v).1 = .invalidFormatThrown e →
      (DecompressionStreamPolyfill.construct v).2 = []) := by
  by_cases h : isValidFormat v
  · constructor
    · intro e he
      have hn := compression_construct_not_thrown v h
      rw [he] at hn
      simp [ConstructResult.threwInvalidFormat] at hn
    · intro e he
      have hn := decompression_construct_not_thrown v h
      rw [he] at hn
      simp [ConstructResult.threwInvalidFormat] at hn
  · have hf : isValidFormat v = false := by simpa using h
    rw [compression_construct_of_invalid v hf, decompression_construct_of_invalid v hf]
    exact ⟨fun _ _ => rfl, fun _ _ => rfl⟩

/-- Witness for C3 at the concrete rejected input, the string bad. -/
theorem claim3_witness :
    (CompressionStreamPolyfill.construct (.str "bad")).2 = [] ∧
    (DecompressionStreamPolyfill.construct (.str "bad")).2 = [] :=
  ⟨(claim3_throw_precedes_allocation (.str "bad")).1
      (invalidFormatError (.str "bad")) (by decide),
   (claim3_throw_precedes_allocation (.str "bad")).2
      (invalidFormatError (.str "bad")) (by decide)⟩

/-- C4: construction with each valid format succeeds, and the resulting
instance exposes a readable and a writable reference, both actual stream
objects (never null), fully determined by the format at construction
time; moreover an instance is determined by those two fields alone, so
they are the only public properties and nothing can change which objects
they refer to. -/
theorem claim4_fixed_duplex_shape (fmt : CompressionFormat) :
    (CompressionStreamPolyfill.construct (.str (formatKey fmt))).1 =
      .constructed ⟨.stream ⟨⟨compressionFactory fmt⟩, .readableSide⟩,
                    .stream ⟨⟨compressionFactory fmt⟩, .writableSide⟩⟩ ∧
    (DecompressionStreamPolyfill.construct (.str (formatKey fmt))).1 =
      .constructed ⟨.stream ⟨⟨decompressionFactory fmt⟩, .readableSide⟩,
                    .stream ⟨⟨decompressionFactory fmt⟩, .writableSide⟩⟩ ∧
    (∀ a b : PolyfillInstance, a.readable = b.readable → a.writable = b.writable → a = b) := by
  refine ⟨?_, ?_, ?_⟩
  · cases fmt <;> decide
  · cases fmt <;> decide
  · intro a b h1 h2
    cases a
    cases b
    simp_all

/-- Witness for C4 at the concrete format gzip. -/
theorem claim4_witness :
    (CompressionStreamPolyfill.construct (.str "gzip")).1 =
      .constructed ⟨.stream ⟨⟨.createGzip⟩, .readableSide⟩,
                    .stream ⟨⟨.createGzip⟩, .writableSide⟩⟩ ∧
    (⟨.jsNull, .jsNull⟩ : PolyfillInstance) = ⟨.jsNull, .jsNull⟩ :=
  ⟨(claim4_fixed_duplex_shape .gzip).1,
   (claim4_fixed_duplex_shape .gzip).2.2 ⟨.jsNull, .jsNull⟩ ⟨.jsNull, .jsNull⟩ rfl rfl⟩

/-- C5: the two constructors share one validation contract: on every input
value one throws the InvalidFormat error exactly when the other does, the
throw happens exactly on the inputs the shared validator rejects, and
on a rejected input both constructors produce identical outcomes. -/
theorem claim5_same_validation_contract (v : JSValue) :
    (CompressionStreamPolyfill.construct v).1.threwInvalidFormat =
      (DecompressionStreamPolyfill.construct v).1.threwInvalidFormat ∧
    (CompressionStreamPolyfill.construct v).1.threwInvalidFormat = !isValidFormat v ∧
    (isValidFormat v = false →
      CompressionStreamPolyfill.construct v = DecompressionStreamPolyfill.construct v) := by
  by_cases h : isValidFormat v
  · have h1 := compression_construct_not_thrown v h
    have h2 := decompression_construct_not_thrown v h
    refine ⟨h1.trans h2.symm, by rw [h1, h]; rfl, fun hf => ?_⟩
    rw [hf] at h
    exact absurd h (by simp)
  · have hf : isValidFormat v = false := by simpa using h
    rw [compression_construct_of_invalid v hf, decompression_construct_of_invalid v hf]
    exact ⟨rfl, by rw [hf]; rfl, fun _ => rfl⟩

/-- Witness for C5 at the concrete rejected input undefined. -/
theorem claim5_witness :
    CompressionStreamPolyfill.construct .undefinedVal =
      DecompressionStreamPolyfill.construct .undefinedVal :=
  (claim5_same_validation_contract .undefinedVal).2.2 (by decide)

/-- C6: on module load, each of the two global names is installed with the
polyfill class as value and the attributes writable, non-enumerable and
configurable exactly when the host leaves it undefined; a slot the host
already defines is returned unchanged. -/
theorem claim6_conditional_registration (g : GlobalThis) :
    (moduleLoad g).compressionStreamSlot =
      (match g.compressionStreamSlot with
       | none => some ⟨.compressionPolyfillClass, true, false, true⟩
       | some d => some d) ∧
    (moduleLoad g).decompressionStreamSlot =
      (match g.decompressionStreamSlot with
       | none => some ⟨.decompressionPolyfillClass, true, false, true⟩
       | some d => some d) := by
  cases g with
  | mk cs ds => cases cs <;> cases ds <;> simp [moduleLoad]

/-- C7: on every rejected format value both constructors throw, during the
constructor call itself, a TypeError whose message contains the String
rendering of the offending value between single quotes and lists the three
accepted names deflate, deflate-raw and gzip. -/
theorem claim7_descriptive_message (v : JSValue) (h : isValidFormat v = false) :
    (CompressionStreamPolyfill.construct v).1 =
      .invalidFormatThrown ⟨.typeError,
        "Invalid compression format " ++ quoteChar ++ jsToString v ++ quoteChar ++
          ". Use: deflate, deflate-raw, or gzip"⟩ ∧
    (DecompressionStreamPolyfill.construct v).1 =
      .invalidFormatThrown ⟨.typeError,
        "Invalid compression format " ++ quoteChar ++ jsToString v ++ quoteChar ++
          ". Use: deflate, deflate-raw, or gzip"⟩ := by
  rw [compression_construct_of_invalid v h, decompression_construct_of_invalid v h]
  exact ⟨rfl, rfl⟩

/-- Witness for C7 at the concrete rejected input, the number 123. -/
theorem claim7_witness :
    (CompressionStreamPolyfill.construct (.num 123)).1 =
      .invalidFormatThrown ⟨.typeError,
        "Invalid compression format " ++ quoteChar ++ "123" ++ quoteChar ++
          ". Use: deflate, deflate-raw, or gzip"⟩ :=
  (claim7_descriptive_message (.num 123) (by decide)).1

/-- C8: for each of the three recognized formats the decompression
constructor succeeds without throwing — it receives no data bytes, so no
corrupt-input failure can occur at construction — while malformed
compressed bytes surface later, as a CorruptInputError of the data
pipeline, here at the one-byte input 0. -/
theorem claim8_construction_never_corrupt (fmt : CompressionFormat) :
    (DecompressionStreamPolyfill.construct (.str (formatKey fmt))).1 =
      .constructed ⟨.stream ⟨⟨decompressionFactory fmt⟩, .readableSide⟩,
                    .stream ⟨⟨decompressionFactory fmt⟩, .writableSide⟩⟩ ∧
    pipeThroughDecompression fmt [0] = .error .corruptInput := by
  cases fmt <;> exact ⟨rfl, rfl⟩

/-- C9: the error either constructor throws on a rejected format is an
instance of the TypeError class, not of a generic or custom error class. -/
theorem claim9_error_is_type_error (v : JSValue) (h : isValidFormat v = false) :
    (CompressionStreamPolyfill.construct v).1 =
      .invalidFormatThrown ⟨.typeError, invalidFormatMessage v⟩ ∧
    (DecompressionStreamPolyfill.construct v).1 =
      .invalidFormatThrown ⟨.typeError, invalidFormatMessage v⟩ := by
  rw [compression_construct_of_invalid v h, decompression_construct_of_invalid v h]
  exact ⟨rfl, rfl⟩

/-- Witness for C9 at the concrete rejected input null. -/
theorem claim9_witness :
    (CompressionStreamPolyfill.construct .nullVal).1 =
      .invalidFormatThrown ⟨.typeError, invalidFormatMessage .nullVal⟩ :=
  (claim9_error_is_type_error .nullVal (by decide)).1

/-- C10: every value whose typeof is not the string string is rejected by
the validator regardless of its string coercion — in particular an object
whose toString yields gzip — and both constructors throw on it. -/
theorem claim10_non_string_rejected (v : JSValue) (h : jsTypeof v ≠ "string") :
    isValidFormat v = false ∧
    (CompressionStreamPolyfill.construct v).1.threwInvalidFormat = true ∧
    (DecompressionStreamPolyfill.construct v).1.threwInvalidFormat = true := by
  have hf : isValidFormat v = false := by
    cases v with
    | str s => exact absurd rfl h
    | num n => rfl
    | boolean b => rfl
    | nullVal => rfl
    | undefinedVal => rfl
    | sym d => rfl
    | obj t => rfl
  rw [compression_construct_of_invalid v hf, decompression_construct_of_invalid v hf]
  exact ⟨hf, rfl, rfl⟩

/-- Witness for C10 at the concrete input: an object whose toString yields
the string gzip. -/
theorem claim10_witness :
    isValidFormat (.obj "gzip") = false ∧
    (CompressionStreamPolyfill.construct (.obj "gzip")).1.threwInvalidFormat = true :=
  ⟨(claim10_non_string_rejected (.obj "gzip") (by decide)).1,
   (claim10_non_string_rejected (.obj "gzip") (by decide)).2.1⟩
